import Mathlib

/-!
Shallow embedding of `src/argdispatcher.py`: a value-dispatch registry.

The Python module defines a class `Dispatcher` with
  * `__init__(key, value, handler, getter, contains)` — stores the
    discriminant name, an empty mapping, the extractor and the contains
    check, then links `value → handler`;
  * `__get__(instance, instance_type)` — returns a `wrapper(*args, **kwargs)`
    closure performing the dispatch;
  * `_set_link(value, handler)` — `self._mapping[value] = handler`;
  * `match(value)` — decorator registering one more handler, raising
    `TypeError` on a duplicate value;
  * `nomatch(method)` — registers the handler for the `_NOMATCH` sentinel;
and a factory `dispatcher(attr=None, key=None, value=None)` choosing between
key mode (`operator.itemgetter` / `operator.contains`) and attribute mode
(`operator.attrgetter` / `hasattr`), raising `ValueError` when neither is
supplied.

Type parameters of the embedding:
  * `I` — the receiving instance type;
  * `A` — the type of positional arguments (the subject is `args[0] : A`);
  * `V` — the type of discriminant values (needs decidable equality, as the
    Python dict keys need hashing/equality);
  * `KW` — the type of the keyword-argument bundle, opaque to the dispatcher;
  * `R` — the handler result type, opaque to the dispatcher.
-/

/-- A key of the internal mapping: either a real discriminant value or the
unique `_NOMATCH` sentinel object, which by construction is distinct from
every real value. -/
inductive MapKey (V : Type) where
  | val (v : V)
  | nomatchKey
  deriving DecidableEq, Repr

/-- A handler: a callable receiving the instance, the subject, the remaining
positional arguments and the keyword arguments. -/
def Handler (I A KW R : Type) : Type := I → A → List A → KW → R

/-- The errors the module raises, with the payload each message names:
`TypeError` for a missing subject, `ValueError` naming the missing key,
`TypeError` naming the unregistered value, `TypeError` naming the duplicated
value, and the factory's `ValueError` for a missing configuration. -/
inductive DispatchError (V : Type) where
  | missingSubject
  | missingDiscriminant (key : String)
  | unregisteredHandler (value : V)
  | duplicateHandler (value : V)
  | configuration
  deriving DecidableEq, Repr

/-- The state of a `Dispatcher` object: the discriminant name `self._key`,
the mapping `self._mapping` (a finite map, embedded as a function to
`Option`), the extractor `self._getter` and the membership test
`self._contains`. -/
structure Dispatcher (I A V KW R : Type) where
  key : String
  mapping : MapKey V → Option (Handler I A KW R)
  getter : A → V
  containsF : A → String → Bool

namespace Dispatcher

variable {I A V KW R : Type} [DecidableEq V]

/-- `Dispatcher._set_link`: `self._mapping[value] = handler` — dict update,
overwriting any existing entry for that key. -/
def setLink (m : MapKey V → Option (Handler I A KW R)) (k : MapKey V)
    (h : Handler I A KW R) : MapKey V → Option (Handler I A KW R) :=
  fun k' => if k' = k then some h else m k'

/-- `Dispatcher.__init__`: store the parameters, start from an empty mapping
and link the first `value → handler`. -/
def init (key : String) (value : V) (handler : Handler I A KW R)
    (getter : A → V) (containsF : A → String → Bool) :
    Dispatcher I A V KW R :=
  { key := key
    mapping := setLink (fun _ => none) (.val value) handler
    getter := getter
    containsF := containsF }

/-- The closure produced by `Dispatcher.__get__`: check the arguments and
dispatch the call.  Raised exceptions are embedded as `Except.error`. -/
def dispatchCall (d : Dispatcher I A V KW R) (instance_ : I)
    (args : List A) (kwargs : KW) : Except (DispatchError V) R :=
  match args with
  | [] => .error .missingSubject
  | first :: rest =>
    if d.containsF first d.key then
      let value := d.getter first
      match d.mapping (.val value) with
      | some h => .ok (h instance_ first rest kwargs)
      | none =>
        match d.mapping .nomatchKey with
        | some h => .ok (h instance_ first rest kwargs)
        | none => .error (.unregisteredHandler value)
    else .error (.missingDiscriminant d.key)

/-- `Dispatcher.match(value)` applied to a method (the name `match` is a Lean
keyword, hence `matchStep`).  The Python method mutates `self` in place and
raises on a duplicate; the embedding returns the post-call state together
with the raised error, if any.  The duplicate check precedes the insertion,
so on error the state is returned unchanged. -/
def matchStep (d : Dispatcher I A V KW R) (value : V)
    (method : Handler I A KW R) :
    Dispatcher I A V KW R × Option (DispatchError V) :=
  if (d.mapping (.val value)).isSome then
    (d, some (.duplicateHandler value))
  else
    ({ d with mapping := setLink d.mapping (.val value) method }, none)

/-- `Dispatcher.nomatch`: link the `_NOMATCH` sentinel to the method.  Total:
the Python method performs the dict assignment unconditionally and returns
`self`. -/
def nomatchStep (d : Dispatcher I A V KW R) (method : Handler I A KW R) :
    Dispatcher I A V KW R :=
  { d with mapping := setLink d.mapping .nomatchKey method }

end Dispatcher

/-- Python truthiness of an optional string argument defaulting to `None`:
`None` and the empty string are falsy, any other string is truthy. -/
def strTruthy : Option String → Bool
  | none => false
  | some s => !(s == "")

/-- The `dispatcher(attr=None, key=None, value=None)` factory.  `itemget` and
`attrget` embed `operator.itemgetter` and `operator.attrgetter` for the
argument type `A`; `containsOp` embeds `operator.contains` and `hasattrF`
embeds `hasattr`.  The code tests `if key:` first, then `if attr:`, and
raises `ValueError` when neither is truthy. -/
def dispatcherBuild {I A V KW R : Type} [DecidableEq V]
    (attr key : Option String) (value : V)
    (itemget : String → A → V) (containsOp : A → String → Bool)
    (attrget : String → A → V) (hasattrF : A → String → Bool)
    (method : Handler I A KW R) :
    Except (DispatchError V) (Dispatcher I A V KW R) :=
  if strTruthy key then
    .ok (Dispatcher.init (key.getD "") value method (itemget (key.getD ""))
      containsOp)
  else if strTruthy attr then
    .ok (Dispatcher.init (attr.getD "") value method (attrget (attr.getD ""))
      hasattrF)
  else
    .error .configuration

/-- One setup-or-call operation on a dispatcher, for stating frame
properties over arbitrary operation sequences.  `callOp` is the closure
produced by `__get__`: it only reads the dispatcher's state, so applying it
leaves the state unchanged. -/
inductive DispatchOp (I A V KW R : Type) where
  | matchOp (value : V) (method : Handler I A KW R)
  | nomatchOp (method : Handler I A KW R)
  | callOp (instance_ : I) (args : List A) (kwargs : KW)

/-- The dispatcher state after one operation.  `matchOp` keeps the post-call
state whether or not the registration raised; `callOp` performs only reads. -/
def applyOp {I A V KW R : Type} [DecidableEq V] (d : Dispatcher I A V KW R) :
    DispatchOp I A V KW R → Dispatcher I A V KW R
  | .matchOp v m => (d.matchStep v m).1
  | .nomatchOp m => d.nomatchStep m
  | .callOp _ _ _ => d

/-- The dispatcher state after a sequence of operations. -/
def applyOps {I A V KW R : Type} [DecidableEq V] (d : Dispatcher I A V KW R) :
    List (DispatchOp I A V KW R) → Dispatcher I A V KW R
  | [] => d
  | op :: ops => applyOps (applyOp d op) ops

section Witnesses

/-- Concrete instantiation used by the witnesses: instance, subject, value,
kwargs and result types are all `Nat`; the subject is its own discriminant. -/
def natDisp : Dispatcher Nat Nat Nat Nat Nat :=
  Dispatcher.init "k" 1 (fun _ _ _ _ => 11) (fun a => a) (fun _ _ => true)

/-- `natDisp` with a default handler registered. -/
def natDispD : Dispatcher Nat Nat Nat Nat Nat :=
  natDisp.nomatchStep (fun _ _ _ _ => 7)

/-- An independent registry also holding a handler for value `0`. -/
def natDispA : Dispatcher Nat Nat Nat Nat Nat :=
  Dispatcher.init "a" 0 (fun _ _ _ _ => 21) (fun a => a) (fun _ _ => true)

/-- A second independent registry holding a handler for value `0`. -/
def natDispB : Dispatcher Nat Nat Nat Nat Nat :=
  Dispatcher.init "b" 0 (fun _ _ _ _ => 22) (fun a => a) (fun _ _ => true)

/-- A registry whose contains check rejects every subject, with a default
handler registered. -/
def natDispNC : Dispatcher Nat Nat Nat Nat Nat :=
  (Dispatcher.init "k" 1 (fun _ _ _ _ => 11) (fun a => a)
    (fun _ _ => false)).nomatchStep (fun _ _ _ _ => 7)

end Witnesses

/- ## Claim theorems -/

/-- C1: for every registry and dispatch call whose subject's extracted
discriminant value has a registered handler `h`, the dispatch entry point
invokes `h` with the instance, the subject, the remaining positional
arguments and the keyword arguments, and returns `h`'s result unchanged
(the result type `R` is opaque to the dispatcher). -/
theorem dispatch_invokes_registered_handler
    {I A V KW R : Type} [DecidableEq V]
    (d : Dispatcher I A V KW R) (instance_ : I) (first : A) (rest : List A)
    (kwargs : KW) (h : Handler I A KW R)
    (hc : d.containsF first d.key = true)
    (hm : d.mapping (.val (d.getter first)) = some h) :
    d.dispatchCall instance_ (first :: rest) kwargs =
      .ok (h instance_ first rest kwargs) := by
  simp [Dispatcher.dispatchCall, hc, hm]

/-- Witness for C1: `natDisp` maps the discriminant `1` to the handler
returning `11`, and dispatching subject `1` returns exactly that result. -/
theorem dispatch_invokes_registered_handler_witness :
    natDisp.dispatchCall 0 (1 :: [2]) 3 = .ok 11 :=
  dispatch_invokes_registered_handler natDisp 0 1 [2] 3
    (fun _ _ _ _ => 11) rfl rfl

/-- C2: for every registry with a default handler registered, dispatching a
subject that exposes the discriminant but whose extracted value is not
separately registered invokes the default handler with the instance, the
subject and the remaining arguments. -/
theorem dispatch_falls_back_to_default
    {I A V KW R : Type} [DecidableEq V]
    (d : Dispatcher I A V KW R) (instance_ : I) (first : A) (rest : List A)
    (kwargs : KW) (dflt : Handler I A KW R)
    (hd : d.mapping .nomatchKey = some dflt)
    (hc : d.containsF first d.key = true)
    (hm : d.mapping (.val (d.getter first)) = none) :
    d.dispatchCall instance_ (first :: rest) kwargs =
      .ok (dflt instance_ first rest kwargs) := by
  simp [Dispatcher.dispatchCall, hc, hm, hd]

/-- Witness for C2: `natDispD` has a default handler returning `7`; subject
`5` has no registered handler, so the default is invoked. -/
theorem dispatch_falls_back_to_default_witness :
    natDispD.dispatchCall 0 (5 :: [2]) 3 = .ok 7 :=
  dispatch_falls_back_to_default natDispD 0 5 [2] 3
    (fun _ _ _ _ => 7) rfl rfl rfl

/-- C3: for every registry without a default handler, dispatching a subject
that contains the configured discriminant but whose extracted value has no
registered handler fails with the unregistered-handler error carrying that
value, and no handler is invoked (the result is an error, not a handler
result). -/
theorem dispatch_unregistered_value_errors
    {I A V KW R : Type} [DecidableEq V]
    (d : Dispatcher I A V KW R) (instance_ : I) (first : A) (rest : List A)
    (kwargs : KW)
    (hc : d.containsF first d.key = true)
    (hm : d.mapping (.val (d.getter first)) = none)
    (hn : d.mapping .nomatchKey = none) :
    d.dispatchCall instance_ (first :: rest) kwargs =
      .error (.unregisteredHandler (d.getter first)) := by
  simp [Dispatcher.dispatchCall, hc, hm, hn]

/-- Witness for C3: `natDisp` has no default handler and no handler for `5`;
dispatching subject `5` fails naming `5`. -/
theorem dispatch_unregistered_value_errors_witness :
    natDisp.dispatchCall 0 (5 :: []) 3 = .error (.unregisteredHandler 5) :=
  dispatch_unregistered_value_errors natDisp 0 5 [] 3 rfl rfl rfl

/-- C4: registering a value that already has a handler (including the value
used at construction) fails with the duplicate-handler error naming the
value and leaves the registry unchanged, while registering the same value on
two independent registries that both lack it succeeds on each (each registry
owns its own mapping). -/
theorem duplicate_registration_rejected
    {I A V KW R : Type} [DecidableEq V]
    (d d1 d2 : Dispatcher I A V KW R) (v : V) (m m1 m2 : Handler I A KW R)
    (hdup : (d.mapping (.val v)).isSome = true)
    (h1 : d1.mapping (.val v) = none)
    (h2 : d2.mapping (.val v) = none) :
    d.matchStep v m = (d, some (.duplicateHandler v)) ∧
    (d1.matchStep v m1).2 = none ∧
    (d2.matchStep v m2).2 = none := by
  refine ⟨?_, ?_, ?_⟩ <;> simp [Dispatcher.matchStep, hdup, h1, h2]

/-- Witness for C4: re-registering `natDisp`'s construction value `1` fails
with the duplicate error, while the independent registries `natDispA` and
`natDispB` each accept a handler for `1`. -/
theorem duplicate_registration_rejected_witness :
    natDisp.matchStep 1 (fun _ _ _ _ => 0) =
      (natDisp, some (.duplicateHandler 1)) ∧
    (natDispA.matchStep 1 (fun _ _ _ _ => 31)).2 = none ∧
    (natDispB.matchStep 1 (fun _ _ _ _ => 32)).2 = none :=
  duplicate_registration_rejected natDisp natDispA natDispB 1
    (fun _ _ _ _ => 0) (fun _ _ _ _ => 31) (fun _ _ _ _ => 32) rfl rfl rfl

/-- C5: for every registry, dispatching with zero positional arguments fails
with the missing-subject error, for every keyword-argument bundle; the
statement quantifies over the whole registry state, so the result is
independent of the mapping, the extractor and the contains check — no
extraction or lookup is attempted. -/
theorem dispatch_empty_args_errors
    {I A V KW R : Type} [DecidableEq V]
    (d : Dispatcher I A V KW R) (instance_ : I) (kwargs : KW) :
    d.dispatchCall instance_ [] kwargs = .error .missingSubject := rfl

/-- C6: for every registry, a subject failing the contains check makes
dispatch fail with the missing-discriminant error naming the configured
discriminant name — with no hypothesis on the default slot, so this holds
even when a default handler is registered — and the result is unchanged
under replacing the extractor by any other, so extraction is never
attempted. -/
theorem dispatch_missing_discriminant_errors
    {I A V KW R : Type} [DecidableEq V]
    (d : Dispatcher I A V KW R) (g' : A → V) (instance_ : I) (first : A)
    (rest : List A) (kwargs : KW)
    (hc : d.containsF first d.key = false) :
    d.dispatchCall instance_ (first :: rest) kwargs =
      .error (.missingDiscriminant d.key) ∧
    ({ d with getter := g' } : Dispatcher I A V KW R).dispatchCall instance_
        (first :: rest) kwargs = .error (.missingDiscriminant d.key) := by
  constructor <;> simp [Dispatcher.dispatchCall, hc]

/-- Witness for C6: `natDispNC` rejects every subject and has a default
handler registered, yet dispatch fails naming the key, also after replacing
the extractor. -/
theorem dispatch_missing_discriminant_errors_witness :
    natDispNC.dispatchCall 0 (5 :: []) 3 =
      .error (.missingDiscriminant "k") ∧
    ({ natDispNC with getter := fun _ => 0 } :
        Dispatcher Nat Nat Nat Nat Nat).dispatchCall 0 (5 :: []) 3 =
      .error (.missingDiscriminant "k") :=
  dispatch_missing_discriminant_errors natDispNC (fun _ => 0) 0 5 [] 3 rfl

/-- Counterexample for C7: supplying both `key` and `attr` does not fail —
the factory tests `if key:` first, so key mode is chosen and construction
succeeds, contradicting the claim that both-supplied raises the
configuration error. -/
theorem dispatcher_build_both_supplied_succeeds :
    @dispatcherBuild Nat Nat Nat Nat Nat _ (some "a") (some "k") 1
      (fun _ a => a) (fun _ _ => true) (fun _ a => a) (fun _ _ => true)
      (fun _ _ _ _ => 0) ≠ .error .configuration :=
  fun h => Except.noConfusion h

/-- C7 (amended): construction fails with the configuration error exactly
when neither `key` nor `attr` is supplied truthy; in particular when both
are supplied construction succeeds (key mode takes precedence). -/
theorem dispatcher_build_config_error_iff
    {I A V KW R : Type} [DecidableEq V]
    (attr key : Option String) (value : V)
    (itemget : String → A → V) (containsOp : A → String → Bool)
    (attrget : String → A → V) (hasattrF : A → String → Bool)
    (method : Handler I A KW R) :
    dispatcherBuild attr key value itemget containsOp attrget hasattrF
        method = .error .configuration ↔
      strTruthy key = false ∧ strTruthy attr = false := by
  cases hk : strTruthy key <;> cases ha : strTruthy attr <;>
    simp [dispatcherBuild, hk, ha]

/-- C8: `nomatch` is total (its type carries no error — the dict assignment
is unconditional), the first registered default is in place, a second call
overwrites it (last write wins, so at most one default exists), and the
non-default entries are untouched. -/
theorem nomatch_overwrites_default
    {I A V KW R : Type} [DecidableEq V]
    (d : Dispatcher I A V KW R) (h1 h2 : Handler I A KW R) :
    (d.nomatchStep h1).mapping .nomatchKey = some h1 ∧
    ((d.nomatchStep h1).nomatchStep h2).mapping .nomatchKey = some h2 ∧
    (∀ v : V, ((d.nomatchStep h1).nomatchStep h2).mapping (.val v) =
      d.mapping (.val v)) := by
  refine ⟨?_, ?_, fun v => ?_⟩ <;> simp [Dispatcher.nomatchStep,
    Dispatcher.setLink]

/-- Helper: one operation preserves the discriminant name, the extractor and
the contains check. -/
theorem applyOp_preserves_config
    {I A V KW R : Type} [DecidableEq V]
    (d : Dispatcher I A V KW R) (op : DispatchOp I A V KW R) :
    (applyOp d op).key = d.key ∧ (applyOp d op).getter = d.getter ∧
      (applyOp d op).containsF = d.containsF := by
  cases op with
  | matchOp v m =>
    simp only [applyOp, Dispatcher.matchStep]
    split <;> exact ⟨rfl, rfl, rfl⟩
  | nomatchOp m => exact ⟨rfl, rfl, rfl⟩
  | callOp i a k => exact ⟨rfl, rfl, rfl⟩

/-- Helper: a sequence of operations preserves the discriminant name, the
extractor and the contains check. -/
theorem applyOps_preserves_config
    {I A V KW R : Type} [DecidableEq V]
    (d : Dispatcher I A V KW R) (ops : List (DispatchOp I A V KW R)) :
    (applyOps d ops).key = d.key ∧ (applyOps d ops).getter = d.getter ∧
      (applyOps d ops).containsF = d.containsF := by
  induction ops generalizing d with
  | nil => exact ⟨rfl, rfl, rfl⟩
  | cons op ops ih =>
    obtain ⟨hk, hg, hc⟩ := applyOp_preserves_config d op
    obtain ⟨hk2, hg2, hc2⟩ := ih (applyOp d op)
    exact ⟨hk2.trans hk, hg2.trans hg, hc2.trans hc⟩

/-- C9: after any sequence of registration and dispatch operations on a
registry, the discriminant name, the extractor and the contains check equal
the values set at construction. -/
theorem config_immutable_after_ops
    {I A V KW R : Type} [DecidableEq V]
    (key : String) (value : V) (handler : Handler I A KW R)
    (getter : A → V) (containsF : A → String → Bool)
    (ops : List (DispatchOp I A V KW R)) :
    (applyOps (Dispatcher.init key value handler getter containsF) ops).key
        = key ∧
    (applyOps (Dispatcher.init key value handler getter containsF)
        ops).getter = getter ∧
    (applyOps (Dispatcher.init key value handler getter containsF)
        ops).containsF = containsF :=
  applyOps_preserves_config (Dispatcher.init key value handler getter
    containsF) ops

/-- C10: when `match` raises the duplicate-handler error, the registry's
state — in particular its handler mapping — is exactly what it was before
the call: the duplicate check precedes the insertion. -/
theorem failed_match_leaves_mapping_unchanged
    {I A V KW R : Type} [DecidableEq V]
    (d d' : Dispatcher I A V KW R) (v : V) (m : Handler I A KW R)
    (e : DispatchError V)
    (h : d.matchStep v m = (d', some e)) :
    d' = d ∧ ∀ k, d'.mapping k = d.mapping k := by
  unfold Dispatcher.matchStep at h
  split at h
  · injection h with h1 h2
    exact ⟨h1.symm, fun k => h1 ▸ rfl⟩
  · injection h with h1 h2
    exact Option.noConfusion h2

/-- Witness for C10: re-registering `1` on `natDisp` raises the duplicate
error and returns the registry unchanged. -/
theorem failed_match_leaves_mapping_unchanged_witness :
    natDisp.matchStep 1 (fun _ _ _ _ => 0) =
      (natDisp, some (.duplicateHandler 1)) ∧
    (natDisp = natDisp ∧ ∀ k, natDisp.mapping k = natDisp.mapping k) :=
  ⟨rfl, failed_match_leaves_mapping_unchanged natDisp natDisp 1
    (fun _ _ _ _ => 0) (.duplicateHandler 1) rfl⟩
